import Mathlib

/-!
Shallow embedding of the mlo-crm repository's five scripts and proofs of the
behavioral claims about them.

The four lookup scripts (`query_feature.py`, `get_feature_30.py`,
`get-feature-242.py`, `get-feature-74.py`) each open a data store, select one
record by a hard-coded identifier, and render it (or an absence message).
`fix-imports.py` patches a text file by inserting two literal lines.

The sqlite layer is modelled explicitly: `sqlite3.connect` on a missing file
creates an empty database (no tables) rather than failing; `cursor.execute`
raises `OperationalError` when the table or a selected column does not exist;
an exception that no script catches terminates the process with exit code 1
before any later statement (such as `conn.close()`) runs.
-/

namespace MloCrm

/-- Values stored in a database cell: integer, text, or NULL. -/
inductive Value where
  | intV : Int → Value
  | textV : String → Value
  | nullV : Value
deriving DecidableEq, Repr

/-- A row of the `features` table: an association of column names to values. -/
def Row : Type := List (String × Value)

instance : DecidableEq Row := by
  unfold Row
  infer_instance

/-- Value of column `c` in row `r` (NULL when the column is absent). -/
def rowField (r : Row) (c : String) : Value :=
  match r.find? (fun p => p.1 == c) with
  | some p => p.2
  | none => Value.nullV

/-- The state of a sqlite database file: whether the `features` table exists,
its column schema, and its rows. -/
structure Store where
  hasTable : Bool
  schema : List String
  rows : List Row
deriving DecidableEq

/-- The database a fresh `sqlite3.connect` creates: no tables at all. -/
def emptyStore : Store := { hasTable := false, schema := [], rows := [] }

/-- What is on disk at the store location: nothing, or a database file. -/
inductive Loc where
  | missing : Loc
  | present : Store → Loc
deriving DecidableEq

/-- Observable store-level events of one script run. -/
inductive Event where
  | openStore : Event
  | createStore : Event
  | execQuery : Event
  | fetchRow : Event
  | closeStore : Event
deriving DecidableEq, Repr

/-- Errors `cursor.execute` can raise for the queries in this repository. -/
inductive SqlError where
  | noSuchTable : SqlError
  | noSuchColumn : String → SqlError
deriving DecidableEq

/-- Database handed back by `sqlite3.connect`: the existing file, or a fresh
empty database when the file is missing (sqlite creates it). -/
def sqliteConnect : Loc → Store
  | Loc.missing => emptyStore
  | Loc.present s => s

/-- Filesystem state after `sqlite3.connect`: a missing file has been created. -/
def sqliteConnectLoc : Loc → Loc
  | Loc.missing => Loc.present emptyStore
  | Loc.present s => Loc.present s

/-- Store events `sqlite3.connect` produces. -/
def connectEvents : Loc → List Event
  | Loc.missing => [Event.openStore, Event.createStore]
  | Loc.present _ => [Event.openStore]

/-- Semantics of `cursor.execute` on
`SELECT cols... FROM features WHERE id = idv` followed by `fetchone()`:
fails when the table is missing or a selected column is not in the schema,
otherwise yields the first row whose `id` column equals `idv` (if any). -/
def executeSelect (s : Store) (cols : List String) (idv : Int) :
    Except SqlError (Option Row) :=
  if !s.hasTable then
    Except.error SqlError.noSuchTable
  else
    match cols.find? (fun c => !(s.schema.contains c)) with
    | some c => Except.error (SqlError.noSuchColumn c)
    | none => Except.ok (s.rows.find? (fun r => rowField r "id" == Value.intV idv))

/-- Result of running one of the sqlite lookup scripts: the store events, the
strings printed to stdout (one per `print` call), the process exit code,
whether the process died from an unhandled exception, and the filesystem state
at the store location afterwards. -/
structure RunResult where
  trace : List Event
  output : List String
  exitCode : Nat
  unhandled : Bool
  finalLoc : Loc
deriving DecidableEq

/-- Python `str()` of a sqlite value, as used inside an f-string. -/
def pyStr : Value → String
  | Value.intV i => toString i
  | Value.textV s => s
  | Value.nullV => "None"

/-- JSON string escaping as performed by `json.dumps` (the escapes that can
occur for the characters handled here). -/
def jsonEscape (s : String) : String :=
  s.data.foldr
    (fun ch acc =>
      (match ch with
       | '\\' => "\\\\"
       | '\"' => "\\\""
       | '\n' => "\\n"
       | _ => String.singleton ch) ++ acc)
    ""

/-- JSON rendering of one sqlite value, as `json.dumps` renders it. -/
def jsonVal : Value → String
  | Value.intV i => toString i
  | Value.textV s => "\"" ++ jsonEscape s ++ "\""
  | Value.nullV => "null"

/-- Multi-line text `json.dumps(dict, indent=2)` produces for an ordered list
of key/value pairs. -/
def jsonBlock (pairs : List (String × Value)) : String :=
  "\x7b\n" ++
    String.intercalate ",\n"
      (pairs.map (fun p => "  \"" ++ p.1 ++ "\": " ++ jsonVal p.2)) ++
    "\n\x7d"

/-- Shared shape of the three sqlite lookup scripts: connect, execute the
SELECT, fetch one row, print the found rendering or the absence output, close.
An `OperationalError` from `execute` is uncaught: the process exits with code 1
and `conn.close()` is never reached. -/
def runSqlite (cols : List String) (idv : Int) (renderFound : Row → List String)
    (absOut : List String) (env : Loc) : RunResult :=
  let s := sqliteConnect env
  match executeSelect s cols idv with
  | Except.error _ =>
      { trace := connectEvents env ++ [Event.execQuery]
        output := []
        exitCode := 1
        unhandled := true
        finalLoc := sqliteConnectLoc env }
  | Except.ok ro =>
      { trace := connectEvents env ++ [Event.execQuery, Event.fetchRow, Event.closeStore]
        output := match ro with
                  | some r => renderFound r
                  | none => absOut
        exitCode := 0
        unhandled := false
        finalLoc := sqliteConnectLoc env }

/-- Columns selected by `query_feature.py` (line 6). -/
def qfCols : List String := ["id", "category", "name", "description", "steps"]

/-- Embedding of `query_feature.py`: selects five columns of the feature with
id 242, prints one `name: value` line per column when found (lines 10 to 14),
otherwise the absence line (line 16). -/
def run_query_feature : Loc → RunResult :=
  runSqlite qfCols 242
    (fun r =>
      [ "id: " ++ pyStr (rowField r "id"),
        "category: " ++ pyStr (rowField r "category"),
        "name: " ++ pyStr (rowField r "name"),
        "description: " ++ pyStr (rowField r "description"),
        "steps: " ++ pyStr (rowField r "steps") ])
    ["No feature found with id=242"]

/-- Columns selected by `get_feature_30.py` (line 5). -/
def gf30Cols : List String := ["id", "priority", "category", "name", "description", "steps"]

/-- Labels `get_feature_30.py` prints in front of each column value. -/
def gf30Labels : List String := ["ID", "Priority", "Category", "Name", "Description", "Steps"]

/-- Embedding of `get_feature_30.py`: selects six columns of the feature with
id 30, prints one labelled line per column when found (lines 9 to 14),
otherwise the absence line (line 16). -/
def run_get_feature_30 : Loc → RunResult :=
  runSqlite gf30Cols 30
    (fun r =>
      [ "ID: " ++ pyStr (rowField r "id"),
        "Priority: " ++ pyStr (rowField r "priority"),
        "Category: " ++ pyStr (rowField r "category"),
        "Name: " ++ pyStr (rowField r "name"),
        "Description: " ++ pyStr (rowField r "description"),
        "Steps: " ++ pyStr (rowField r "steps") ])
    ["Feature #30 not found"]

/-- Columns selected by `get-feature-242.py` (line 6). -/
def gf242Cols : List String :=
  ["id", "category", "name", "description", "steps", "passes", "in_progress"]

/-- Embedding of `get-feature-242.py`: selects seven columns of the feature
with id 242, prints the dict as one indented JSON block when found (lines 10
to 19), otherwise the absence line (line 21). -/
def run_get_feature_242 : Loc → RunResult :=
  runSqlite gf242Cols 242
    (fun r => [jsonBlock (gf242Cols.map (fun c => (c, rowField r c)))])
    ["Feature not found"]

/-- A store is good for a column list when the file exists, the `features`
table exists, and every selected column is in the schema: exactly the
condition under which `executeSelect` succeeds. -/
def goodStore (cols : List String) : Loc → Bool
  | Loc.missing => false
  | Loc.present s => s.hasTable && cols.all (fun c => s.schema.contains c)

/-- Modelled from the spec: the data-access layer imported by
`get-feature-74.py` (`api.database.create_database`, the `Feature` model and
its `to_json`) is not under `src/`. Following sections 4.1 and 7 of the spec,
one invocation of that layer either fails with `SourceUnavailable` while
opening the store (before a session exists), fails with `SchemaMismatch`
during the query (inside the script's `try` block), or yields the optional
record. -/
inductive DbOutcome where
  | sourceUnavailable : DbOutcome
  | schemaMismatch : DbOutcome
  | result : Option Row → DbOutcome
deriving DecidableEq

/-- Whether the data-access layer of `get-feature-74.py` completed the query. -/
def dbOk : DbOutcome → Bool
  | DbOutcome.result _ => true
  | _ => false

/-- Result of running `get-feature-74.py`: whether a session was acquired,
whether it was closed again, the printed lines, and the exit code. -/
structure Run74 where
  acquiredSession : Bool
  closedSession : Bool
  output : List String
  exitCode : Nat
deriving DecidableEq

/-- Embedding of `get-feature-74.py` (lines 12 to 22) over the spec-modelled
data-access layer: `create_database` may fail before a session exists; once
`session_maker()` ran, the `try`/`finally` guarantees `session.close()` even
when the query raises; a found feature prints `to_json(indent=2)` (modelled
from the spec as a key-ordered block of the record's fields), absence prints
the line of source line 20. An uncaught failure exits with code 1. -/
def run_get_feature_74 : DbOutcome → Run74
  | DbOutcome.sourceUnavailable =>
      { acquiredSession := false, closedSession := false, output := [], exitCode := 1 }
  | DbOutcome.schemaMismatch =>
      { acquiredSession := true, closedSession := true, output := [], exitCode := 1 }
  | DbOutcome.result (some r) =>
      { acquiredSession := true, closedSession := true, output := [jsonBlock r], exitCode := 0 }
  | DbOutcome.result none =>
      { acquiredSession := true, closedSession := true,
        output := ["Feature #74 not found"], exitCode := 0 }

/-- Whether `pat` occurs as a contiguous sublist of `l`:
the semantics of Python's `pat in line` on the character level. -/
def listHasInfix (pat : List Char) : List Char → Bool
  | [] => pat.isEmpty
  | a :: t => pat.isPrefixOf (a :: t) || listHasInfix pat t

/-- Python's substring test `pat in s`. -/
def containsSubstr (s pat : String) : Bool :=
  listHasInfix pat.data s.data

/-- One pass of `fix-imports.py` (the `for`/`if`/`insert`/`break` loop):
insert `ins` directly after the first line containing `pat`; leave the list
unchanged when no line matches. -/
def insertAfterFirst (pat ins : String) : List String → List String
  | [] => []
  | l :: ls =>
      if containsSubstr l pat then l :: ins :: ls
      else l :: insertAfterFirst pat ins ls

/-- Pattern of the first loop of `fix-imports.py` (line 9). -/
def progressPat : String := "  Progress,"

/-- Line the first loop inserts (line 11). -/
def boxLine : String := "  Box,\n"

/-- Pattern of the second loop of `fix-imports.py` (line 16). -/
def datesPat : String := "from \x27@mantine/dates\x27;"

/-- Line the second loop inserts (line 17). -/
def dropzoneLine : String :=
  "import \x7b Dropzone, FileWithPath \x7d from \x27@mantine/dropzone\x27;\n"

/-- Embedding of `fix-imports.py`: read the file's lines, run the two
insertion loops in order, write the result back, and print the success
message (which happens unconditionally, line 23). -/
def fixImports (lines : List String) : List String × String :=
  (insertAfterFirst datesPat dropzoneLine (insertAfterFirst progressPat boxLine lines),
   "Imports added successfully")

/-- Schema holding every column any of the lookup scripts selects. -/
def fullSchema : List String :=
  ["id", "priority", "category", "name", "description", "steps", "passes", "in_progress"]

/-- A sample feature record with id 242. -/
def sampleRow : Row :=
  [("id", Value.intV 242), ("priority", Value.textV "high"),
   ("category", Value.textV "core"), ("name", Value.textV "Widget"),
   ("description", Value.textV "desc"), ("steps", Value.textV "s1"),
   ("passes", Value.intV 1), ("in_progress", Value.intV 0)]

/-- A store whose `features` table has the full schema and one record, id 242. -/
def storeWith242 : Store :=
  { hasTable := true, schema := fullSchema, rows := [sampleRow] }

/-- A store with the full schema and no records at all. -/
def storeEmptyRows : Store :=
  { hasTable := true, schema := fullSchema, rows := [] }

/-- A store whose `features` table lacks most of the selected columns. -/
def storeNarrow : Store :=
  { hasTable := true, schema := ["id", "name"], rows := [] }

/-! Helper lemmas about the shared sqlite script shape. -/

/-- When every selected column is in the schema, the column check of
`executeSelect` finds no offender. -/
theorem find_missing_col_eq_none (s : Store) (cols : List String)
    (h2 : cols.all (fun c => s.schema.contains c) = true) :
    cols.find? (fun c => !(s.schema.contains c)) = none := by
  rw [List.find?_eq_none]
  intro c hc
  simpa using List.all_eq_true.mp h2 c hc

/-- On a store with the table and all selected columns, `executeSelect`
succeeds and yields the first row with the requested id. -/
theorem executeSelect_good (s : Store) (cols : List String) (idv : Int)
    (h1 : s.hasTable = true)
    (h2 : cols.all (fun c => s.schema.contains c) = true) :
    executeSelect s cols idv =
      Except.ok (s.rows.find? (fun r => rowField r "id" == Value.intV idv)) := by
  unfold executeSelect
  rw [h1, find_missing_col_eq_none s cols h2]
  rfl

/-- On a store missing the table or one of the selected columns,
`executeSelect` raises. -/
theorem executeSelect_bad (s : Store) (cols : List String) (idv : Int)
    (h : (s.hasTable && cols.all (fun c => s.schema.contains c)) = false) :
    ∃ e, executeSelect s cols idv = Except.error e := by
  unfold executeSelect
  rcases htab : s.hasTable with _ | _
  · exact ⟨SqlError.noSuchTable, rfl⟩
  · have h2 : (cols.all fun c => s.schema.contains c) = false := by
      rw [htab] at h
      simpa using h
    rcases hsome : cols.find? (fun c => !(s.schema.contains c)) with _ | c
    · exfalso
      have hall := List.find?_eq_none.mp hsome
      have hcontra : (cols.all fun c => s.schema.contains c) = true := by
        rw [List.all_eq_true]
        intro c hc
        have hc2 := hall c hc
        simpa using hc2
      rw [hcontra] at h2
      cases h2
    · exact ⟨SqlError.noSuchColumn c, rfl⟩

/-- A sqlite lookup script run on a good store: execute succeeds, the found
rendering or the absence output is printed, the handle is closed, exit 0. -/
theorem runSqlite_present_good (cols : List String) (idv : Int)
    (rf : Row → List String) (ao : List String) (s : Store)
    (h1 : s.hasTable = true)
    (h2 : cols.all (fun c => s.schema.contains c) = true) :
    runSqlite cols idv rf ao (Loc.present s) =
      { trace := [Event.openStore, Event.execQuery, Event.fetchRow, Event.closeStore]
        output := match s.rows.find? (fun r => rowField r "id" == Value.intV idv) with
                  | some r => rf r
                  | none => ao
        exitCode := 0
        unhandled := false
        finalLoc := Loc.present s } := by
  simp [runSqlite, sqliteConnect, connectEvents, sqliteConnectLoc,
    executeSelect_good s cols idv h1 h2]

/-- A sqlite lookup script run on a present but bad store (no table, or a
selected column missing): execute raises, nothing is printed, the process
dies unhandled with exit 1, and the close event never happens. -/
theorem runSqlite_present_bad (cols : List String) (idv : Int)
    (rf : Row → List String) (ao : List String) (s : Store)
    (h : (s.hasTable && cols.all (fun c => s.schema.contains c)) = false) :
    runSqlite cols idv rf ao (Loc.present s) =
      { trace := [Event.openStore, Event.execQuery]
        output := []
        exitCode := 1
        unhandled := true
        finalLoc := Loc.present s } := by
  obtain ⟨e, he⟩ := executeSelect_bad s cols idv h
  simp [runSqlite, sqliteConnect, connectEvents, sqliteConnectLoc, he]

/-- A sqlite lookup script run on a missing store file: connect creates an
empty database, the query then fails on the missing table, the process dies
unhandled with exit 1. -/
theorem runSqlite_missing (cols : List String) (idv : Int)
    (rf : Row → List String) (ao : List String) :
    runSqlite cols idv rf ao Loc.missing =
      { trace := [Event.openStore, Event.createStore, Event.execQuery]
        output := []
        exitCode := 1
        unhandled := true
        finalLoc := Loc.present emptyStore } := rfl

/-- The filesystem state after a sqlite lookup script is exactly the state
after `sqlite3.connect`, on every path. -/
theorem runSqlite_finalLoc (cols : List String) (idv : Int)
    (rf : Row → List String) (ao : List String) (env : Loc) :
    (runSqlite cols idv rf ao env).finalLoc = sqliteConnectLoc env := by
  simp only [runSqlite]
  cases executeSelect (sqliteConnect env) cols idv <;> rfl

/-- Exit code of a sqlite lookup script: 0 exactly on good stores. -/
theorem runSqlite_exitCode (cols : List String) (idv : Int)
    (rf : Row → List String) (ao : List String) (env : Loc) :
    (runSqlite cols idv rf ao env).exitCode =
      if goodStore cols env then 0 else 1 := by
  cases env with
  | missing => rfl
  | present s =>
      rcases hg : s.hasTable && cols.all (fun c => s.schema.contains c) with _ | _
      · rw [runSqlite_present_bad cols idv rf ao s hg]
        simp only [goodStore]
        simp only [hg]
        rfl
      · obtain ⟨h1, h2⟩ := Bool.and_eq_true_iff.mp hg
        rw [runSqlite_present_good cols idv rf ao s h1 h2]
        simp only [goodStore]
        simp only [hg]
        rfl

/-- Unhandled-exception flag of a sqlite lookup script: set exactly on bad
stores. -/
theorem runSqlite_unhandled (cols : List String) (idv : Int)
    (rf : Row → List String) (ao : List String) (env : Loc) :
    (runSqlite cols idv rf ao env).unhandled = !goodStore cols env := by
  cases env with
  | missing => rfl
  | present s =>
      rcases hg : s.hasTable && cols.all (fun c => s.schema.contains c) with _ | _
      · rw [runSqlite_present_bad cols idv rf ao s hg]
        simp only [goodStore]
        simp only [hg]
        rfl
      · obtain ⟨h1, h2⟩ := Bool.and_eq_true_iff.mp hg
        rw [runSqlite_present_good cols idv rf ao s h1 h2]
        simp only [goodStore]
        simp only [hg]
        rfl

/-- The close event happens exactly on the runs that exit 0. -/
theorem runSqlite_close_iff_exit_zero (cols : List String) (idv : Int)
    (rf : Row → List String) (ao : List String) (env : Loc) :
    (Event.closeStore ∈ (runSqlite cols idv rf ao env).trace ↔
      (runSqlite cols idv rf ao env).exitCode = 0) := by
  cases env with
  | missing => simp [runSqlite_missing]
  | present s =>
      rcases hg : s.hasTable && cols.all (fun c => s.schema.contains c) with _ | _
      · rw [runSqlite_present_bad cols idv rf ao s hg]
        simp
      · obtain ⟨h1, h2⟩ := Bool.and_eq_true_iff.mp hg
        rw [runSqlite_present_good cols idv rf ao s h1 h2]
        simp

/-- Running a sqlite lookup script again on the store state its first run
left behind gives the same printed output and the same exit code. -/
theorem runSqlite_repeat (cols : List String) (idv : Int)
    (rf : Row → List String) (ao : List String) (env : Loc) :
    (runSqlite cols idv rf ao ((runSqlite cols idv rf ao env).finalLoc)).output =
        (runSqlite cols idv rf ao env).output ∧
      (runSqlite cols idv rf ao ((runSqlite cols idv rf ao env).finalLoc)).exitCode =
        (runSqlite cols idv rf ao env).exitCode := by
  cases env with
  | missing => exact ⟨rfl, rfl⟩
  | present s =>
      rw [runSqlite_finalLoc cols idv rf ao (Loc.present s)]
      exact ⟨rfl, rfl⟩

/-! Helper lemmas about the insertion loop of `fix-imports.py`. -/

/-- The original lines survive an insertion unchanged and in order. -/
theorem sublist_insertAfterFirst (pat ins : String) (ls : List String) :
    ls.Sublist (insertAfterFirst pat ins ls) := by
  induction ls with
  | nil => exact List.Sublist.refl []
  | cons l t ih =>
      unfold insertAfterFirst
      rcases h : containsSubstr l pat with _ | _
      · simp only [Bool.false_eq_true, if_false]
        exact List.cons_sublist_cons.mpr ih
      · simp only [if_true]
        exact List.cons_sublist_cons.mpr (List.sublist_cons_self ins t)

/-- An insertion adds exactly one line when some line matches and none
otherwise. -/
theorem length_insertAfterFirst (pat ins : String) (ls : List String) :
    (insertAfterFirst pat ins ls).length =
      ls.length + (if ls.any (fun l => containsSubstr l pat) then 1 else 0) := by
  induction ls with
  | nil => rfl
  | cons l t ih =>
      unfold insertAfterFirst
      rcases h : containsSubstr l pat with _ | _
      · simp [h, ih]
        omega
      · simp [h]

/-- When no line matches, the insertion loop leaves the file unchanged. -/
theorem insertAfterFirst_no_match (pat ins : String) (ls : List String)
    (h : ls.any (fun l => containsSubstr l pat) = false) :
    insertAfterFirst pat ins ls = ls := by
  induction ls with
  | nil => rfl
  | cons l t ih =>
      rw [List.any_cons] at h
      obtain ⟨h1, h2⟩ := Bool.or_eq_false_iff.mp h
      unfold insertAfterFirst
      rw [h1, ih h2]
      rfl

/-- The insertion goes directly after the first matching line: everything
before it is untouched, everything after it is untouched. -/
theorem insertAfterFirst_first_match (pat ins : String) (pre : List String)
    (l : String) (post : List String)
    (hpre : ∀ p ∈ pre, containsSubstr p pat = false)
    (hl : containsSubstr l pat = true) :
    insertAfterFirst pat ins (pre ++ l :: post) = pre ++ l :: ins :: post := by
  induction pre with
  | nil => simp [insertAfterFirst, hl]
  | cons p t ih =>
      have hp := hpre p (List.mem_cons_self p t)
      simp only [List.cons_append]
      unfold insertAfterFirst
      rw [hp]
      simp only [Bool.false_eq_true, if_false]
      rw [ih (fun q hq => hpre q (List.mem_cons_of_mem p hq))]

/-- Inserting a line that does not itself contain a second pattern does not
change whether any line contains that second pattern. -/
theorem any_insertAfterFirst (pat ins pat2 : String) (ls : List String)
    (hins : containsSubstr ins pat2 = false) :
    (insertAfterFirst pat ins ls).any (fun l => containsSubstr l pat2) =
      ls.any (fun l => containsSubstr l pat2) := by
  induction ls with
  | nil => rfl
  | cons l t ih =>
      unfold insertAfterFirst
      rcases h : containsSubstr l pat with _ | _
      · simp [ih]
      · simp [hins]

/-! Claim theorems. -/

/-- Claim C1: for every store and identifier, when a record with the given
identifier exists, each lookup script outputs exactly the requested fields
populated from that record, each exactly once, in the requested order, and
nothing else: the printed output equals the field projection list mapped over
the found record (for `get-feature-74.py`, over its spec-modelled rendering
layer, the key-ordered block of the record's fields). -/
theorem claim1_found_projection (s : Store) (r : Row) :
    ((goodStore qfCols (Loc.present s) = true) →
      s.rows.find? (fun row => rowField row "id" == Value.intV 242) = some r →
      (run_query_feature (Loc.present s)).output =
        qfCols.map (fun c => c ++ ": " ++ pyStr (rowField r c)))
    ∧ ((goodStore gf30Cols (Loc.present s) = true) →
      s.rows.find? (fun row => rowField row "id" == Value.intV 30) = some r →
      (run_get_feature_30 (Loc.present s)).output =
        (gf30Labels.zip gf30Cols).map (fun p => p.1 ++ ": " ++ pyStr (rowField r p.2)))
    ∧ ((goodStore gf242Cols (Loc.present s) = true) →
      s.rows.find? (fun row => rowField row "id" == Value.intV 242) = some r →
      (run_get_feature_242 (Loc.present s)).output =
        [jsonBlock (gf242Cols.map (fun c => (c, rowField r c)))])
    ∧ ((run_get_feature_74 (DbOutcome.result (some r))).output = [jsonBlock r]) := by
  refine ⟨?_, ?_, ?_, rfl⟩
  · intro hg hr
    have hgb : (s.hasTable && qfCols.all (fun c => s.schema.contains c)) = true := hg
    obtain ⟨h1, h2⟩ := Bool.and_eq_true_iff.mp hgb
    unfold run_query_feature
    rw [runSqlite_present_good qfCols 242 _ _ s h1 h2]
    rw [hr]
    rfl
  · intro hg hr
    have hgb : (s.hasTable && gf30Cols.all (fun c => s.schema.contains c)) = true := hg
    obtain ⟨h1, h2⟩ := Bool.and_eq_true_iff.mp hgb
    unfold run_get_feature_30
    rw [runSqlite_present_good gf30Cols 30 _ _ s h1 h2]
    rw [hr]
    rfl
  · intro hg hr
    have hgb : (s.hasTable && gf242Cols.all (fun c => s.schema.contains c)) = true := hg
    obtain ⟨h1, h2⟩ := Bool.and_eq_true_iff.mp hgb
    unfold run_get_feature_242
    rw [runSqlite_present_good gf242Cols 242 _ _ s h1 h2]
    rw [hr]

/-- Witness for C1 at a concrete store containing the record with id 242. -/
theorem claim1_witness :
    (run_query_feature (Loc.present storeWith242)).output =
      qfCols.map (fun c => c ++ ": " ++ pyStr (rowField sampleRow c)) :=
  (claim1_found_projection storeWith242 sampleRow).1 (by decide) (by decide)

/-- Claim C2: on a well-formed store holding no record with the requested
identifier, each lookup script neither raises nor fails: it prints the absence
message and exits with code 0. -/
theorem claim2_absence_is_clean (s : Store)
    (hq : goodStore qfCols (Loc.present s) = true)
    (h30 : goodStore gf30Cols (Loc.present s) = true)
    (h242 : goodStore gf242Cols (Loc.present s) = true)
    (no30 : s.rows.find? (fun r => rowField r "id" == Value.intV 30) = none)
    (no242 : s.rows.find? (fun r => rowField r "id" == Value.intV 242) = none) :
    ((run_query_feature (Loc.present s)).unhandled = false ∧
      (run_query_feature (Loc.present s)).exitCode = 0 ∧
      (run_query_feature (Loc.present s)).output = ["No feature found with id=242"]) ∧
    ((run_get_feature_30 (Loc.present s)).unhandled = false ∧
      (run_get_feature_30 (Loc.present s)).exitCode = 0 ∧
      (run_get_feature_30 (Loc.present s)).output = ["Feature #30 not found"]) ∧
    ((run_get_feature_242 (Loc.present s)).unhandled = false ∧
      (run_get_feature_242 (Loc.present s)).exitCode = 0 ∧
      (run_get_feature_242 (Loc.present s)).output = ["Feature not found"]) := by
  have hqb : (s.hasTable && qfCols.all (fun c => s.schema.contains c)) = true := hq
  have h30b : (s.hasTable && gf30Cols.all (fun c => s.schema.contains c)) = true := h30
  have h242b : (s.hasTable && gf242Cols.all (fun c => s.schema.contains c)) = true := h242
  obtain ⟨hq1, hq2⟩ := Bool.and_eq_true_iff.mp hqb
  obtain ⟨h301, h302⟩ := Bool.and_eq_true_iff.mp h30b
  obtain ⟨h2421, h2422⟩ := Bool.and_eq_true_iff.mp h242b
  refine ⟨?_, ?_, ?_⟩
  · unfold run_query_feature
    rw [runSqlite_present_good qfCols 242 _ _ s hq1 hq2, no242]
    exact ⟨rfl, rfl, rfl⟩
  · unfold run_get_feature_30
    rw [runSqlite_present_good gf30Cols 30 _ _ s h301 h302, no30]
    exact ⟨rfl, rfl, rfl⟩
  · unfold run_get_feature_242
    rw [runSqlite_present_good gf242Cols 242 _ _ s h2421 h2422, no242]
    exact ⟨rfl, rfl, rfl⟩

/-- Witness for C2 at a concrete store with the full schema and no rows. -/
theorem claim2_witness :
    (run_get_feature_30 (Loc.present storeEmptyRows)).unhandled = false ∧
      (run_get_feature_30 (Loc.present storeEmptyRows)).exitCode = 0 ∧
      (run_get_feature_30 (Loc.present storeEmptyRows)).output = ["Feature #30 not found"] :=
  (claim2_absence_is_clean storeEmptyRows (by decide) (by decide) (by decide)
    (by decide) (by decide)).2.1

/-- Claim C4: running any of the sqlite lookup scripts a second time on the
store state the first run left behind prints byte-identical output and exits
with the same code. -/
theorem claim4_idempotent (env : Loc) :
    ((run_query_feature ((run_query_feature env).finalLoc)).output =
        (run_query_feature env).output ∧
      (run_query_feature ((run_query_feature env).finalLoc)).exitCode =
        (run_query_feature env).exitCode) ∧
    ((run_get_feature_30 ((run_get_feature_30 env).finalLoc)).output =
        (run_get_feature_30 env).output ∧
      (run_get_feature_30 ((run_get_feature_30 env).finalLoc)).exitCode =
        (run_get_feature_30 env).exitCode) ∧
    ((run_get_feature_242 ((run_get_feature_242 env).finalLoc)).output =
        (run_get_feature_242 env).output ∧
      (run_get_feature_242 ((run_get_feature_242 env).finalLoc)).exitCode =
        (run_get_feature_242 env).exitCode) :=
  ⟨runSqlite_repeat _ _ _ _ env, runSqlite_repeat _ _ _ _ env, runSqlite_repeat _ _ _ _ env⟩

/-- Claim C3 counterexample: `get-feature-242.py` run on a well-formed store
with no record of id 242 prints the single line `Feature not found`, which
does not name the identifier 242. -/
theorem claim3_counterexample :
    (run_get_feature_242 (Loc.present storeEmptyRows)).output = ["Feature not found"] ∧
      containsSubstr "Feature not found" "242" = false := by
  decide

/-- Claim C3 (amended): on a well-formed store holding no record with the
requested identifier, `query_feature.py`, `get_feature_30.py` and the
spec-modelled `get-feature-74.py` each render absence as a single line naming
exactly the requested identifier, while `get-feature-242.py` renders a single
line that does not name it. -/
theorem claim3_absence_line (s : Store)
    (hq : goodStore qfCols (Loc.present s) = true)
    (h30 : goodStore gf30Cols (Loc.present s) = true)
    (h242 : goodStore gf242Cols (Loc.present s) = true)
    (no30 : s.rows.find? (fun r => rowField r "id" == Value.intV 30) = none)
    (no242 : s.rows.find? (fun r => rowField r "id" == Value.intV 242) = none) :
    ((run_query_feature (Loc.present s)).output = ["No feature found with id=242"] ∧
      containsSubstr "No feature found with id=242" "242" = true) ∧
    ((run_get_feature_30 (Loc.present s)).output = ["Feature #30 not found"] ∧
      containsSubstr "Feature #30 not found" "30" = true) ∧
    ((run_get_feature_242 (Loc.present s)).output = ["Feature not found"] ∧
      containsSubstr "Feature not found" "242" = false) ∧
    ((run_get_feature_74 (DbOutcome.result none)).output = ["Feature #74 not found"] ∧
      containsSubstr "Feature #74 not found" "74" = true) := by
  have hqb : (s.hasTable && qfCols.all (fun c => s.schema.contains c)) = true := hq
  have h30b : (s.hasTable && gf30Cols.all (fun c => s.schema.contains c)) = true := h30
  have h242b : (s.hasTable && gf242Cols.all (fun c => s.schema.contains c)) = true := h242
  obtain ⟨hq1, hq2⟩ := Bool.and_eq_true_iff.mp hqb
  obtain ⟨h301, h302⟩ := Bool.and_eq_true_iff.mp h30b
  obtain ⟨h2421, h2422⟩ := Bool.and_eq_true_iff.mp h242b
  refine ⟨⟨?_, by decide⟩, ⟨?_, by decide⟩, ⟨?_, by decide⟩, ⟨rfl, by decide⟩⟩
  · unfold run_query_feature
    rw [runSqlite_present_good qfCols 242 _ _ s hq1 hq2, no242]
  · unfold run_get_feature_30
    rw [runSqlite_present_good gf30Cols 30 _ _ s h301 h302, no30]
  · unfold run_get_feature_242
    rw [runSqlite_present_good gf242Cols 242 _ _ s h2421 h2422, no242]

/-- Witness for the amended C3 at a concrete store with no rows. -/
theorem claim3_witness :
    (run_query_feature (Loc.present storeEmptyRows)).output =
        ["No feature found with id=242"] ∧
      containsSubstr "No feature found with id=242" "242" = true :=
  (claim3_absence_line storeEmptyRows (by decide) (by decide) (by decide)
    (by decide) (by decide)).1

/-- Claim C5 counterexample: with a store whose schema lacks the requested
column `category`, `query_feature.py` still opens the store first; the failure
happens at query execution, after the open, as an unhandled exception — not as
a fail-fast SchemaMismatch before any store access. -/
theorem claim5_counterexample :
    (run_query_feature (Loc.present storeNarrow)).trace =
        [Event.openStore, Event.execQuery] ∧
      (run_query_feature (Loc.present storeNarrow)).unhandled = true ∧
      (run_query_feature (Loc.present storeNarrow)).exitCode = 1 := by
  decide

/-- Claim C5 (amended): requesting a field absent from the schema makes
`query_feature.py` and `get-feature-242.py` fail with an unhandled
`OperationalError` at query execution, with a non-zero exit and no output —
but only after the store has been opened, and without closing the handle. -/
theorem claim5_schema_mismatch_after_open (s : Store)
    (htab : s.hasTable = true)
    (hqf : qfCols.all (fun c => s.schema.contains c) = false)
    (h242 : gf242Cols.all (fun c => s.schema.contains c) = false) :
    run_query_feature (Loc.present s) =
        { trace := [Event.openStore, Event.execQuery], output := [], exitCode := 1,
          unhandled := true, finalLoc := Loc.present s } ∧
    run_get_feature_242 (Loc.present s) =
        { trace := [Event.openStore, Event.execQuery], output := [], exitCode := 1,
          unhandled := true, finalLoc := Loc.present s } := by
  constructor
  · unfold run_query_feature
    exact runSqlite_present_bad qfCols 242 _ _ s (by rw [htab, hqf]; rfl)
  · unfold run_get_feature_242
    exact runSqlite_present_bad gf242Cols 242 _ _ s (by rw [htab, h242]; rfl)

/-- Witness for the amended C5 at a concrete store lacking `category`. -/
theorem claim5_witness :
    run_query_feature (Loc.present storeNarrow) =
      { trace := [Event.openStore, Event.execQuery], output := [], exitCode := 1,
        unhandled := true, finalLoc := Loc.present storeNarrow } :=
  (claim5_schema_mismatch_after_open storeNarrow (by decide) (by decide) (by decide)).1

/-- Claim C6 counterexample: on a nonexistent store location,
`query_feature.py` does not fail cleanly with a SourceUnavailable condition:
it crashes with an unhandled exception, and the connect has meanwhile created
an empty store file at the location. -/
theorem claim6_counterexample :
    (run_query_feature Loc.missing).unhandled = true ∧
      (run_query_feature Loc.missing).finalLoc ≠ Loc.missing := by
  decide

/-- Claim C6 (amended): opening a nonexistent store location succeeds —
sqlite creates an empty database file there — and the lookup then dies with an
unhandled no-such-table error and exit code 1; no script has SourceUnavailable
handling. -/
theorem claim6_missing_store :
    run_query_feature Loc.missing =
        { trace := [Event.openStore, Event.createStore, Event.execQuery], output := [],
          exitCode := 1, unhandled := true, finalLoc := Loc.present emptyStore } ∧
    run_get_feature_30 Loc.missing =
        { trace := [Event.openStore, Event.createStore, Event.execQuery], output := [],
          exitCode := 1, unhandled := true, finalLoc := Loc.present emptyStore } ∧
    run_get_feature_242 Loc.missing =
        { trace := [Event.openStore, Event.createStore, Event.execQuery], output := [],
          exitCode := 1, unhandled := true, finalLoc := Loc.present emptyStore } :=
  ⟨rfl, rfl, rfl⟩

/-- Claim C7: the three sqlite lookup scripts are read-only: on every
execution path over an existing store (found, not found, or schema error),
the store file and its contents are unchanged when the run ends. -/
theorem claim7_read_only (s : Store) :
    (run_query_feature (Loc.present s)).finalLoc = Loc.present s ∧
      (run_get_feature_30 (Loc.present s)).finalLoc = Loc.present s ∧
      (run_get_feature_242 (Loc.present s)).finalLoc = Loc.present s :=
  ⟨runSqlite_finalLoc _ _ _ _ (Loc.present s),
   runSqlite_finalLoc _ _ _ _ (Loc.present s),
   runSqlite_finalLoc _ _ _ _ (Loc.present s)⟩

/-- Claim C8 counterexample: on a store whose schema lacks a requested
column, `query_feature.py` never closes its connection: the unhandled
exception at `cursor.execute` skips `conn.close()`. -/
theorem claim8_counterexample :
    Event.closeStore ∉ (run_query_feature (Loc.present storeNarrow)).trace ∧
      (run_query_feature (Loc.present storeNarrow)).unhandled = true := by
  decide

/-- Claim C8 (amended): the sqlite lookup scripts close the store handle
exactly on the runs that exit successfully (record found or absence reported);
on the error paths (missing store file, schema mismatch) the unhandled
exception ends the process before `conn.close()` runs. Only
`get-feature-74.py` guarantees release on every path after acquisition, via
its `try`/`finally`. -/
theorem claim8_close_only_on_success (env : Loc) :
    (Event.closeStore ∈ (run_query_feature env).trace ↔
        (run_query_feature env).exitCode = 0) ∧
    (Event.closeStore ∈ (run_get_feature_30 env).trace ↔
        (run_get_feature_30 env).exitCode = 0) ∧
    (Event.closeStore ∈ (run_get_feature_242 env).trace ↔
        (run_get_feature_242 env).exitCode = 0) ∧
    (∀ db : DbOutcome, (run_get_feature_74 db).acquiredSession = true →
        (run_get_feature_74 db).closedSession = true) := by
  refine ⟨runSqlite_close_iff_exit_zero _ _ _ _ env,
    runSqlite_close_iff_exit_zero _ _ _ _ env,
    runSqlite_close_iff_exit_zero _ _ _ _ env, ?_⟩
  intro db h
  cases db with
  | sourceUnavailable => exact absurd h (by decide)
  | schemaMismatch => rfl
  | result ro => cases ro <;> rfl

/-- Witness for the amended C8: the session of `get-feature-74.py` is closed
on its schema-mismatch path. -/
theorem claim8_witness :
    (run_get_feature_74 DbOutcome.schemaMismatch).acquiredSession = true ∧
      (run_get_feature_74 DbOutcome.schemaMismatch).closedSession = true :=
  ⟨rfl, (claim8_close_only_on_success Loc.missing).2.2.2 DbOutcome.schemaMismatch rfl⟩

/-- Claim C9: each lookup script exits with code 0 exactly when the lookup
succeeds (record found, or absence cleanly reported) and with code 1 when a
SourceUnavailable condition (store missing) or SchemaMismatch condition
(requested column absent, table absent) occurs. -/
theorem claim9_exit_codes (env : Loc) (db : DbOutcome) :
    (run_query_feature env).exitCode = (if goodStore qfCols env then 0 else 1) ∧
    (run_get_feature_30 env).exitCode = (if goodStore gf30Cols env then 0 else 1) ∧
    (run_get_feature_242 env).exitCode = (if goodStore gf242Cols env then 0 else 1) ∧
    (run_get_feature_74 db).exitCode = (if dbOk db then 0 else 1) := by
  refine ⟨runSqlite_exitCode _ _ _ _ env, runSqlite_exitCode _ _ _ _ env,
    runSqlite_exitCode _ _ _ _ env, ?_⟩
  cases db with
  | sourceUnavailable => rfl
  | schemaMismatch => rfl
  | result ro => cases ro <;> rfl

/-- Claim C10: `fix-imports.py` prints its success message unconditionally;
the original lines all survive, unchanged and in order; each of the two
insertions happens at most once (exactly when some line matches its pattern,
and not at all otherwise); and an insertion lands directly after the first
matching line, leaving everything before and after untouched. -/
theorem claim10_fix_imports (lines : List String) :
    (fixImports lines).2 = "Imports added successfully" ∧
    lines.Sublist (fixImports lines).1 ∧
    (fixImports lines).1.length = lines.length
      + (if lines.any (fun l => containsSubstr l progressPat) then 1 else 0)
      + (if lines.any (fun l => containsSubstr l datesPat) then 1 else 0) ∧
    (lines.any (fun l => containsSubstr l progressPat) = false →
      lines.any (fun l => containsSubstr l datesPat) = false →
      (fixImports lines).1 = lines) ∧
    (∀ pat ins : String, ∀ pre : List String, ∀ l : String, ∀ post : List String,
      (∀ p ∈ pre, containsSubstr p pat = false) → containsSubstr l pat = true →
      insertAfterFirst pat ins (pre ++ l :: post) = pre ++ l :: ins :: post) := by
  refine ⟨rfl, ?_, ?_, ?_, ?_⟩
  · exact (sublist_insertAfterFirst progressPat boxLine lines).trans
      (sublist_insertAfterFirst datesPat dropzoneLine _)
  · have hfix : (fixImports lines).1 =
        insertAfterFirst datesPat dropzoneLine (insertAfterFirst progressPat boxLine lines) := rfl
    rw [hfix, length_insertAfterFirst,
      any_insertAfterFirst progressPat boxLine datesPat lines (by decide),
      length_insertAfterFirst]
  · intro h1 h2
    have hfix : (fixImports lines).1 =
        insertAfterFirst datesPat dropzoneLine (insertAfterFirst progressPat boxLine lines) := rfl
    rw [hfix, insertAfterFirst_no_match progressPat boxLine lines h1,
      insertAfterFirst_no_match datesPat dropzoneLine lines h2]
  · exact fun pat ins pre l post hpre hl =>
      insertAfterFirst_first_match pat ins pre l post hpre hl

/-- Witness for C10 at concrete inputs: a no-match file passes through
unchanged, and an insertion lands right after the first matching line. -/
theorem claim10_witness :
    (fixImports ["alpha\n"]).1 = ["alpha\n"] ∧
      insertAfterFirst progressPat boxLine ["x", "  Progress,", "y"] =
        ["x", "  Progress,", boxLine, "y"] :=
  ⟨(claim10_fix_imports ["alpha\n"]).2.2.2.1 (by decide) (by decide),
   (claim10_fix_imports []).2.2.2.2 progressPat boxLine ["x"] "  Progress," ["y"]
     (by decide) (by decide)⟩

end MloCrm
